import Mathlib

/-!
# Verification of the SWELL SPL-token transfer subsystem

Shallow embedding of the repository's Solana/SWELL core
(`src/solana/{errors,config,connection,mint,account,transfer}.ts`, the
amount-utility and balance modules) and proofs of the frozen claims.

Modelling conventions:
* JavaScript numbers used as token amounts are modelled as rationals `ℚ`
  (every rational is finite, so the `Number.isFinite` guard is vacuous here);
  raw token amounts are integers.
* Public keys are abstract naturals; the associated-token-account derivation
  is an abstract function `ataOf : ℕ → ℕ` supplied by the environment.
* Every network call is an oracle value in a `TransferEnv` record: the value
  the call would produce (or the JavaScript error it would throw, modelled as
  its message string).  Async sequencing becomes explicit state passing; each
  performed call is recorded in a trace of `Event`s.
* A thrown JavaScript value is either a typed `SwellTransferError` or an
  untyped error (`ThrownError.untyped`), mirroring `throw` in the source.
-/

/-- JavaScript error, identified by its message (as used by the source's
string-matching heuristics). -/
abbrev JsError := String

/-- Error codes from `src/solana/errors.ts` (`SwellErrorCode`). -/
inductive SwellErrorCode
  | INSUFFICIENT_BALANCE
  | INSUFFICIENT_SOL
  | INVALID_RECIPIENT
  | INVALID_AMOUNT
  | SIMULATION_FAILED
  | CONFIRMATION_FAILED
  | USER_REJECTED
  | NETWORK_ERROR
  | ACCOUNT_CREATION_FAILED
  | MINT_FETCH_FAILED
  | UNKNOWN
  deriving DecidableEq, Repr

/-- `SwellTransferError` from `src/solana/errors.ts`: message, typed code,
optional original cause. -/
structure SwellTransferError where
  message : String
  code : SwellErrorCode
  cause : Option JsError
  deriving DecidableEq, Repr

/-- A value thrown out of a pipeline: either a typed `SwellTransferError`
or an untyped JavaScript error. -/
inductive ThrownError
  | typed (e : SwellTransferError)
  | untyped (e : JsError)
  deriving DecidableEq, Repr

/-- `DEFAULT_PRIORITY_FEE_MICROLAMPORTS` from `src/solana/config.ts`. -/
def DEFAULT_PRIORITY_FEE_MICROLAMPORTS : ℕ := 1000

/-- `DEFAULT_COMPUTE_UNITS` from `src/solana/config.ts`. -/
def DEFAULT_COMPUTE_UNITS : ℕ := 100000

/-- `SOLANA_EXPLORER_URL` from `src/solana/config.ts`. -/
def SOLANA_EXPLORER_URL : String := "https://explorer.solana.com"

/-- `getExplorerTxUrl` from `src/solana/config.ts`. -/
def getExplorerTxUrl (signature : String) : String :=
  SOLANA_EXPLORER_URL ++ "/tx/" ++ signature

/-- Outcome of a `getAccount` RPC read of a token account: the account
exists with a raw amount, is absent (`TokenAccountNotFoundError`), or the
read fails with some other error. -/
inductive AccountRead
  | ok (rawAmount : ℕ)
  | notFound
  | failure (e : JsError)
  deriving DecidableEq, Repr

/-- Instructions attached to the built transaction (`Transaction.add` calls
in `transferSwell`). -/
inductive Instr
  | computeUnitLimit (units : ℕ)
  | computeUnitPrice (microLamports : ℕ)
  | createAta (payer owner : ℕ)
  | transfer (source dest owner : ℕ) (amount : ℤ)
  deriving DecidableEq, Repr

/-- Network / signer events performed by a pipeline run, in order. -/
inductive Event
  | fetchMint
  | readAccount (ata : ℕ)
  | fetchBlockhash
  | built (tx : List Instr)
  | simulate
  | sign
  | send
  | confirm
  | getTx
  deriving DecidableEq, Repr

/-- `TokenBalance` from `src/solana/types` as used by the balance module. -/
structure TokenBalance where
  amount : ℚ
  rawAmount : ℕ
  tokenAccount : ℕ
  accountExists : Bool
  deriving DecidableEq, Repr

/-- `TransferResult` from `src/solana/types`. -/
structure TransferResult where
  signature : String
  slot : ℕ
  blockTime : Option ℤ
  explorerUrl : String
  deriving DecidableEq, Repr

/-- `TransferParams`: sender key, recipient key (with a flag recording
whether `recipient.toBase58()` succeeds), amount, optional priority fee. -/
structure TransferParams where
  senderKey : ℕ
  recipientKey : ℕ
  recipientValid : Bool
  amount : ℚ
  priorityFee : Option ℕ
  deriving DecidableEq, Repr

/-- Oracle for the external world seen by one `transferSwell` run: the
result each network / signer call would produce, plus the process-wide
mint-decimals cache at entry. -/
structure TransferEnv where
  ataOf : ℕ → ℕ
  cache : Option ℕ
  fetchMint : Except JsError ℕ
  senderRead : AccountRead
  recipientRead : AccountRead
  blockhash : Except JsError (String × ℕ)
  simulate : Except JsError (Option String)
  sign : Except JsError Unit
  send : Except JsError String
  confirm : Except JsError (Option String × ℕ)
  getTx : Except JsError (Option ℤ)

/-- Substring test on character lists (JavaScript `String.includes`). -/
def charsInclude (hay needle : List Char) : Bool :=
  (List.range (hay.length + 1)).any fun i => needle.isPrefixOf (hay.drop i)

/-- Case-insensitive substring test, modelling
`message.toLowerCase().includes(needle)`. -/
def strIncludes (hay needle : String) : Bool :=
  charsInclude hay.toLower.toList needle.toList

/-- `getSwellDecimals` from `src/solana/mint.ts`, as one step over the
process-wide cache.  Given the cache at entry and the value the `getMint`
RPC call would produce, returns the call's outcome, the cache afterwards,
and the network events performed (`[.fetchMint]` when it fetched). -/
def getSwellDecimals (cache : Option ℕ) (fetch : Except JsError ℕ) :
    Except SwellTransferError ℕ × Option ℕ × List Event :=
  match cache with
  | some d => (.ok d, some d, [])
  | none =>
    match fetch with
    | .ok d => (.ok d, some d, [Event.fetchMint])
    | .error e =>
      (.error ⟨"Failed to fetch SWELL mint info: " ++ e,
        SwellErrorCode.MINT_FETCH_FAILED, some e⟩, none, [Event.fetchMint])

/-- A process running `getSwellDecimals` repeatedly: `oracle k` is the value
the k-th actual mint fetch would produce.  `runDecimals oracle n` returns
the cache and the number of fetches performed after `n` calls, starting
from the empty cache. -/
def runDecimals (oracle : ℕ → Except JsError ℕ) : ℕ → Option ℕ × ℕ
  | 0 => (none, 0)
  | n + 1 =>
    let s := runDecimals oracle n
    let r := getSwellDecimals s.1 (oracle s.2)
    (r.2.1, s.2 + r.2.2.length)

/-- `getSwellBalance` from the balance module: resolves decimals (through
the mint cache), derives the owner's associated token account, then reads
it; a `TokenAccountNotFoundError` yields a zero balance, any other read
failure is wrapped as `NETWORK_ERROR`.  Returns the outcome, the mint cache
afterwards, and the events performed. -/
def getSwellBalance (ataOf : ℕ → ℕ) (cache : Option ℕ)
    (fetch : Except JsError ℕ) (read : AccountRead) (owner : ℕ) :
    Except SwellTransferError TokenBalance × Option ℕ × List Event :=
  match getSwellDecimals cache fetch with
  | (.error e, cache1, evs) => (.error e, cache1, evs)
  | (.ok decimals, cache1, evs) =>
    let tokenAccountAddress := ataOf owner
    match read with
    | .ok raw =>
      (.ok ⟨(raw : ℚ) / 10 ^ decimals, raw, tokenAccountAddress, true⟩,
        cache1, evs ++ [Event.readAccount tokenAccountAddress])
    | .notFound =>
      (.ok ⟨0, 0, tokenAccountAddress, false⟩,
        cache1, evs ++ [Event.readAccount tokenAccountAddress])
    | .failure e =>
      (.error ⟨"Failed to fetch SWELL balance: " ++ e,
        SwellErrorCode.NETWORK_ERROR, some e⟩,
        cache1, evs ++ [Event.readAccount tokenAccountAddress])

/-- `doesSwellAccountExist` from `src/solana/account.ts`: reads the owner's
associated token account; absence yields `false`, any other failure is
re-thrown unchanged (an untyped JavaScript error). -/
def doesSwellAccountExist (ataOf : ℕ → ℕ) (read : AccountRead) (owner : ℕ) :
    Except JsError Bool × List Event :=
  let ata := ataOf owner
  match read with
  | .ok _ => (.ok true, [Event.readAccount ata])
  | .notFound => (.ok false, [Event.readAccount ata])
  | .failure e => (.error e, [Event.readAccount ata])

/-- Pure core of `toRawAmount` (amount-utility module) and of the inline
`rawAmount` computation in `transferSwell`: `floor(amount * 10^decimals)`,
with the chain-derived decimals supplied as an argument. -/
def toRawAmount (decimals : ℕ) (amount : ℚ) : ℤ :=
  ⌊amount * 10 ^ decimals⌋

/-- Pure core of `fromRawAmount` (amount-utility module): raw units divided
by `10^decimals`. -/
def fromRawAmount (decimals : ℕ) (raw : ℤ) : ℚ :=
  (raw : ℚ) / 10 ^ decimals

/-- `isValidTransferAmount` from the amount-utility module: non-positive
amounts are invalid (the non-finite case cannot arise over `ℚ`); otherwise
decimals are resolved through the cache and the amount is valid when
`floor(amount * 10^decimals) = amount * 10^decimals`.  A decimals-fetch
failure propagates as the typed `MINT_FETCH_FAILED` error. -/
def isValidTransferAmount (cache : Option ℕ) (fetch : Except JsError ℕ)
    (amount : ℚ) : Except SwellTransferError Bool × Option ℕ :=
  if amount ≤ 0 then (.ok false, cache)
  else
    match getSwellDecimals cache fetch with
    | (.error e, cache1, _) => (.error e, cache1)
    | (.ok decimals, cache1, _) =>
      (.ok (decide ((⌊amount * 10 ^ decimals⌋ : ℚ) = amount * 10 ^ decimals)),
        cache1)

/-- Error classification of the send/confirm `catch` block in
`transferSwell` (lines 238-270): "insufficient funds" maps to
`INSUFFICIENT_SOL`, "blockhash not found"/"expired" to
`CONFIRMATION_FAILED`, anything else to `NETWORK_ERROR`. -/
def classifySendError (e : JsError) : SwellTransferError :=
  if strIncludes e "insufficient funds" then
    ⟨"Insufficient SOL for transaction fees",
      SwellErrorCode.INSUFFICIENT_SOL, some e⟩
  else if strIncludes e "blockhash not found" || strIncludes e "expired" then
    ⟨"Transaction expired. Please try again.",
      SwellErrorCode.CONFIRMATION_FAILED, some e⟩
  else
    ⟨"Transfer failed: " ++ e, SwellErrorCode.NETWORK_ERROR, some e⟩

/-- Rejection heuristic of the signing `catch` block in `transferSwell`
(lines 184-203): the lowercased message contains "rejected", "cancelled"
or "denied". -/
def isRejectionMessage (e : JsError) : Bool :=
  strIncludes e "rejected" || strIncludes e "cancelled" ||
    strIncludes e "denied"

/-- Steps 1-3 of `transferSwell` (`src/solana/transfer.ts` lines 62-158):
validate amount / recipient / self-transfer, fetch sender balance and
decimals (the `Promise.all` modelled as balance first, then the now-cached
decimals), check the recipient's account existence, fetch a blockhash and
build the transaction's instruction list.  Returns the built instructions
(or the raised error) and the trace of performed events. -/
def transferPrep (env : TransferEnv) (p : TransferParams) :
    Except ThrownError (List Instr) × List Event :=
  if p.amount ≤ 0 then
    (.error (.typed ⟨"Transfer amount must be a positive number",
      SwellErrorCode.INVALID_AMOUNT, none⟩), [])
  else if !p.recipientValid then
    (.error (.typed ⟨"Invalid recipient address",
      SwellErrorCode.INVALID_RECIPIENT, none⟩), [])
  else if p.senderKey = p.recipientKey then
    (.error (.typed ⟨"Cannot transfer to yourself",
      SwellErrorCode.INVALID_RECIPIENT, none⟩), [])
  else
    let b := getSwellBalance env.ataOf env.cache env.fetchMint env.senderRead
      p.senderKey
    match b.1 with
    | .error e => (.error (.typed e), b.2.2)
    | .ok senderBalance =>
      let dec := getSwellDecimals b.2.1 env.fetchMint
      match dec.1 with
      | .error e => (.error (.typed e), b.2.2 ++ dec.2.2)
      | .ok decimals =>
        if !senderBalance.accountExists then
          (.error (.typed ⟨"Sender does not have a SWELL token account",
            SwellErrorCode.INSUFFICIENT_BALANCE, none⟩), b.2.2 ++ dec.2.2)
        else if senderBalance.amount < p.amount then
          (.error (.typed ⟨"Insufficient SWELL balance",
            SwellErrorCode.INSUFFICIENT_BALANCE, none⟩), b.2.2 ++ dec.2.2)
        else
          let senderAta := env.ataOf p.senderKey
          let recipientAta := env.ataOf p.recipientKey
          let ex := doesSwellAccountExist env.ataOf env.recipientRead
            p.recipientKey
          match ex.1 with
          | .error e => (.error (.untyped e), b.2.2 ++ dec.2.2 ++ ex.2)
          | .ok recipientAccountExists =>
            let rawAmount : ℤ := ⌊p.amount * 10 ^ decimals⌋
            match env.blockhash with
            | .error e =>
              (.error (.untyped e),
                b.2.2 ++ dec.2.2 ++ ex.2 ++ [Event.fetchBlockhash])
            | .ok _ =>
              let priorityFeeAmount :=
                p.priorityFee.getD DEFAULT_PRIORITY_FEE_MICROLAMPORTS
              let transaction :=
                (if 0 < priorityFeeAmount then
                  [Instr.computeUnitLimit DEFAULT_COMPUTE_UNITS,
                    Instr.computeUnitPrice priorityFeeAmount]
                else []) ++
                (if !recipientAccountExists then
                  [Instr.createAta p.senderKey p.recipientKey]
                else []) ++
                [Instr.transfer senderAta recipientAta p.senderKey rawAmount]
              (.ok transaction, b.2.2 ++ dec.2.2 ++ ex.2 ++
                [Event.fetchBlockhash, Event.built transaction])

/-- Steps 4-6 of `transferSwell` (`src/solana/transfer.ts` lines 164-270):
simulate the built transaction, sign it (classifying signer rejections),
send it, wait for confirmation and fetch the transaction details; the
send/confirm/details failures are classified by the `catch`-block string
matching.  Returns the outcome and the events performed from simulation
onwards. -/
def transferFinish (env : TransferEnv) :
    Except ThrownError TransferResult × List Event :=
  match env.simulate with
  | .error e =>
    (.error (.untyped e), [Event.simulate])
  | .ok (some simErr) =>
    (.error (.typed ⟨"Transaction simulation failed: " ++ simErr,
      SwellErrorCode.SIMULATION_FAILED, none⟩), [Event.simulate])
  | .ok none =>
    match env.sign with
    | .error e =>
      if isRejectionMessage e then
        (.error (.typed ⟨"User rejected the transaction",
          SwellErrorCode.USER_REJECTED, some e⟩),
          [Event.simulate, Event.sign])
      else
        (.error (.typed ⟨"Failed to sign transaction: " ++ e,
          SwellErrorCode.UNKNOWN, some e⟩), [Event.simulate, Event.sign])
    | .ok _ =>
      match env.send with
      | .error e =>
        (.error (.typed (classifySendError e)),
          [Event.simulate, Event.sign, Event.send])
      | .ok signature =>
        match env.confirm with
        | .error e =>
          (.error (.typed (classifySendError e)),
            [Event.simulate, Event.sign, Event.send, Event.confirm])
        | .ok (some confirmErr, _) =>
          (.error (.typed ⟨"Transaction failed: " ++ confirmErr,
            SwellErrorCode.CONFIRMATION_FAILED, none⟩),
            [Event.simulate, Event.sign, Event.send, Event.confirm])
        | .ok (none, slot) =>
          match env.getTx with
          | .error e =>
            (.error (.typed (classifySendError e)),
              [Event.simulate, Event.sign, Event.send, Event.confirm,
                Event.getTx])
          | .ok blockTime =>
            (.ok ⟨signature, slot, blockTime, getExplorerTxUrl signature⟩,
              [Event.simulate, Event.sign, Event.send, Event.confirm,
                Event.getTx])

/-- `transferSwell` from `src/solana/transfer.ts`: the full pipeline,
validate → check balance → build (`transferPrep`), then
simulate → sign → send → confirm (`transferFinish`).  Returns the outcome
(success, typed error, or untyped propagated error) and the trace of
performed events. -/
def transferSwell (env : TransferEnv) (p : TransferParams) :
    Except ThrownError TransferResult × List Event :=
  match (transferPrep env p).1 with
  | .error e => (.error e, (transferPrep env p).2)
  | .ok _ =>
    ((transferFinish env).1, (transferPrep env p).2 ++ (transferFinish env).2)

/-- The recipient-existence value `doesSwellAccountExist` reports for a
given read outcome (meaningful when the read does not fail). -/
def recipientExistsOf : AccountRead → Bool
  | .ok _ => true
  | _ => false

/-- The decimals value the pipeline works with once the mint fetch has
succeeded (cache value, or the fetched value on a cold cache). -/
def resolvedDecimals (cache : Option ℕ) (fetch : Except JsError ℕ) : ℕ :=
  match cache with
  | some d => d
  | none => match fetch with | .ok d => d | .error _ => 0

/-- Shape of the transaction `transferSwell` builds, as a function of the
request and environment: optional compute-budget pair, optional
create-account instruction, then the transfer instruction. -/
def builtInstructions (env : TransferEnv) (p : TransferParams) : List Instr :=
  (if 0 < p.priorityFee.getD DEFAULT_PRIORITY_FEE_MICROLAMPORTS then
    [Instr.computeUnitLimit DEFAULT_COMPUTE_UNITS,
      Instr.computeUnitPrice (p.priorityFee.getD DEFAULT_PRIORITY_FEE_MICROLAMPORTS)]
  else []) ++
  (if !recipientExistsOf env.recipientRead then
    [Instr.createAta p.senderKey p.recipientKey]
  else []) ++
  [Instr.transfer (env.ataOf p.senderKey) (env.ataOf p.recipientKey)
    p.senderKey
    ⌊p.amount * 10 ^ resolvedDecimals env.cache env.fetchMint⌋]

lemma mem_getSwellDecimals_events {c : Option ℕ} {f : Except JsError ℕ}
    {e : Event} (h : e ∈ (getSwellDecimals c f).2.2) : e = Event.fetchMint := by
  cases c <;> cases f <;> simp [getSwellDecimals] at h <;> simp [h]

lemma mem_getSwellBalance_events {a : ℕ → ℕ} {c : Option ℕ}
    {f : Except JsError ℕ} {r : AccountRead} {o : ℕ} {e : Event}
    (h : e ∈ (getSwellBalance a c f r o).2.2) :
    e = Event.fetchMint ∨ e = Event.readAccount (a o) := by
  unfold getSwellBalance at h
  cases c <;> cases f <;> cases r <;>
    simp [getSwellDecimals] at h <;> simp [h]

set_option linter.unnecessarySeqFocus false

lemma mem_doesSwellAccountExist_events {a : ℕ → ℕ} {r : AccountRead} {o : ℕ}
    {e : Event} (h : e ∈ (doesSwellAccountExist a r o).2) :
    e = Event.readAccount (a o) := by
  cases r <;> simpa [doesSwellAccountExist] using h

lemma getSwellDecimals_error_code {c : Option ℕ} {f : Except JsError ℕ}
    {e : SwellTransferError} (h : (getSwellDecimals c f).1 = .error e) :
    e.code = SwellErrorCode.MINT_FETCH_FAILED := by
  cases c <;> cases f <;> simp [getSwellDecimals] at h <;>
    simp [← h]

lemma getSwellBalance_error_code {a : ℕ → ℕ} {c : Option ℕ}
    {f : Except JsError ℕ} {r : AccountRead} {o : ℕ}
    {e : SwellTransferError} (h : (getSwellBalance a c f r o).1 = .error e) :
    e.code = SwellErrorCode.MINT_FETCH_FAILED ∨
      e.code = SwellErrorCode.NETWORK_ERROR := by
  unfold getSwellBalance at h
  cases c <;> cases f <;> cases r <;>
    simp [getSwellDecimals] at h <;> simp [← h]

lemma classifySendError_code (e : JsError) :
    (classifySendError e).code = SwellErrorCode.INSUFFICIENT_SOL ∨
      (classifySendError e).code = SwellErrorCode.CONFIRMATION_FAILED ∨
      (classifySendError e).code = SwellErrorCode.NETWORK_ERROR := by
  unfold classifySendError
  split <;> [skip; split] <;> simp

lemma classifySendError_cause (e : JsError) :
    (classifySendError e).cause = some e := by
  unfold classifySendError
  split <;> [skip; split] <;> simp

lemma doesSwellAccountExist_events_eq (a : ℕ → ℕ) (r : AccountRead) (o : ℕ) :
    (doesSwellAccountExist a r o).2 = [Event.readAccount (a o)] := by
  cases r <;> rfl

lemma transferPrep_events {env : TransferEnv} {p : TransferParams} {e : Event}
    (h : e ∈ (transferPrep env p).2) :
    e = Event.fetchMint ∨ e = Event.readAccount (env.ataOf p.senderKey) ∨
    e = Event.readAccount (env.ataOf p.recipientKey) ∨
    e = Event.fetchBlockhash ∨ ∃ tx, e = Event.built tx := by
  simp only [transferPrep] at h
  split at h
  · simp at h
  split at h
  · simp at h
  split at h
  · simp at h
  split at h
  · rcases mem_getSwellBalance_events h with h | h <;> simp [h]
  split at h
  · simp only [List.mem_append] at h
    rcases h with h | h
    · rcases mem_getSwellBalance_events h with h | h <;> simp [h]
    · have h2 := mem_getSwellDecimals_events h
      simp [h2]
  split at h
  · simp only [List.mem_append] at h
    rcases h with h | h
    · rcases mem_getSwellBalance_events h with h | h <;> simp [h]
    · have h2 := mem_getSwellDecimals_events h
      simp [h2]
  split at h
  · simp only [List.mem_append] at h
    rcases h with h | h
    · rcases mem_getSwellBalance_events h with h | h <;> simp [h]
    · have h2 := mem_getSwellDecimals_events h
      simp [h2]
  split at h
  · simp only [List.mem_append, doesSwellAccountExist_events_eq,
      List.mem_singleton] at h
    rcases h with (h | h) | h
    · rcases mem_getSwellBalance_events h with h | h <;> simp [h]
    · have h2 := mem_getSwellDecimals_events h
      simp [h2]
    · simp [h]
  split at h
  · simp only [List.mem_append, doesSwellAccountExist_events_eq,
      List.mem_singleton, List.mem_cons, List.not_mem_nil, or_false] at h
    rcases h with ((h | h) | h) | h
    · rcases mem_getSwellBalance_events h with h | h <;> simp [h]
    · have h2 := mem_getSwellDecimals_events h
      simp [h2]
    · simp [h]
    · simp [h]
  · simp only [List.mem_append, doesSwellAccountExist_events_eq,
      List.mem_singleton, List.mem_cons, List.not_mem_nil, or_false] at h
    rcases h with ((h | h) | h) | h | h
    · rcases mem_getSwellBalance_events h with h | h <;> simp [h]
    · have h2 := mem_getSwellDecimals_events h
      simp [h2]
    · simp [h]
    · simp [h]
    · simp [h]

lemma resolvedDecimals_balance_cache (a : ℕ → ℕ) (c : Option ℕ)
    (f : Except JsError ℕ) (r : AccountRead) (o : ℕ) :
    resolvedDecimals (getSwellBalance a c f r o).2.1 f = resolvedDecimals c f := by
  cases c <;> cases f <;> cases r <;> rfl

lemma getSwellDecimals_ok_value {c : Option ℕ} {f : Except JsError ℕ} {d : ℕ}
    (h : (getSwellDecimals c f).1 = .ok d) : d = resolvedDecimals c f := by
  cases c <;> cases f <;> simp [getSwellDecimals, resolvedDecimals] at h ⊢ <;>
    simp [h]

lemma doesSwellAccountExist_ok_value {a : ℕ → ℕ} {r : AccountRead} {o : ℕ}
    {v : Bool} (h : (doesSwellAccountExist a r o).1 = .ok v) :
    v = recipientExistsOf r := by
  cases r <;> simp [doesSwellAccountExist, recipientExistsOf] at h ⊢ <;>
    simp [h]

lemma transferPrep_built {env : TransferEnv} {p : TransferParams}
    {tx : List Instr} (h : Event.built tx ∈ (transferPrep env p).2) :
    tx = builtInstructions env p := by
  simp only [transferPrep] at h
  split at h
  · simp at h
  split at h
  · simp at h
  split at h
  · simp at h
  split at h
  · exact absurd (mem_getSwellBalance_events h) (by simp)
  split at h
  · simp only [List.mem_append] at h
    rcases h with h | h
    · exact absurd (mem_getSwellBalance_events h) (by simp)
    · exact absurd (mem_getSwellDecimals_events h) (by simp)
  split at h
  · simp only [List.mem_append] at h
    rcases h with h | h
    · exact absurd (mem_getSwellBalance_events h) (by simp)
    · exact absurd (mem_getSwellDecimals_events h) (by simp)
  split at h
  · simp only [List.mem_append] at h
    rcases h with h | h
    · exact absurd (mem_getSwellBalance_events h) (by simp)
    · exact absurd (mem_getSwellDecimals_events h) (by simp)
  split at h
  · simp only [List.mem_append, doesSwellAccountExist_events_eq,
      List.mem_singleton] at h
    rcases h with (h | h) | h
    · exact absurd (mem_getSwellBalance_events h) (by simp)
    · exact absurd (mem_getSwellDecimals_events h) (by simp)
    · simp at h
  split at h
  · simp only [List.mem_append, doesSwellAccountExist_events_eq,
      List.mem_singleton, List.mem_cons, List.not_mem_nil, or_false] at h
    rcases h with ((h | h) | h) | h
    · exact absurd (mem_getSwellBalance_events h) (by simp)
    · exact absurd (mem_getSwellDecimals_events h) (by simp)
    · simp at h
    · simp at h
  · rename_i hpos hval hself xb sb hbal xd decs hdec hacc hlt xe rex hex xh av hbh
    have hd : decs = resolvedDecimals env.cache env.fetchMint := by
      have h2 := getSwellDecimals_ok_value hdec
      rwa [resolvedDecimals_balance_cache] at h2
    have hr : rex = recipientExistsOf env.recipientRead :=
      doesSwellAccountExist_ok_value hex
    simp only [List.mem_append, doesSwellAccountExist_events_eq,
      List.mem_singleton, List.mem_cons, List.not_mem_nil, or_false] at h
    rcases h with ((h | h) | h) | h | h
    · exact absurd (mem_getSwellBalance_events h) (by simp)
    · exact absurd (mem_getSwellDecimals_events h) (by simp)
    · simp at h
    · simp at h
    · simp only [Event.built.injEq] at h
      simp [builtInstructions, ← hd, ← hr, h]

lemma transferPrep_no_simulate (env : TransferEnv) (p : TransferParams) :
    Event.simulate ∉ (transferPrep env p).2 := by
  intro h
  rcases transferPrep_events h with h | h | h | h | ⟨tx, h⟩ <;> simp at h

lemma transferPrep_no_sign (env : TransferEnv) (p : TransferParams) :
    Event.sign ∉ (transferPrep env p).2 := by
  intro h
  rcases transferPrep_events h with h | h | h | h | ⟨tx, h⟩ <;> simp at h

lemma transferPrep_no_send (env : TransferEnv) (p : TransferParams) :
    Event.send ∉ (transferPrep env p).2 := by
  intro h
  rcases transferPrep_events h with h | h | h | h | ⟨tx, h⟩ <;> simp at h

lemma doesSwellAccountExist_error {a : ℕ → ℕ} {r : AccountRead} {o : ℕ}
    {e : JsError} (h : (doesSwellAccountExist a r o).1 = .error e) :
    r = .failure e := by
  cases r <;> simp [doesSwellAccountExist] at h <;> simp [h]

lemma transferPrep_invalid_amount_code {env : TransferEnv}
    {p : TransferParams} {err : SwellTransferError}
    (h : (transferPrep env p).1 = .error (.typed err))
    (hc : err.code = SwellErrorCode.INVALID_AMOUNT) : p.amount ≤ 0 := by
  simp only [transferPrep] at h
  split at h
  · assumption
  split at h
  · simp at h
    rw [← h] at hc
    simp at hc
  split at h
  · simp at h
    rw [← h] at hc
    simp at hc
  split at h
  · simp at h
    rename_i e heq
    rw [← h] at hc
    rcases getSwellBalance_error_code heq with h2 | h2 <;> simp [h2] at hc
  split at h
  · simp at h
    rename_i e heq
    rw [← h] at hc
    simp [getSwellDecimals_error_code heq] at hc
  split at h
  · simp at h
    rw [← h] at hc
    simp at hc
  split at h
  · simp at h
    rw [← h] at hc
    simp at hc
  split at h
  · simp at h
  split at h
  · simp at h
  · simp at h

lemma transferPrep_untyped {env : TransferEnv} {p : TransferParams}
    {e : JsError} (h : (transferPrep env p).1 = .error (.untyped e)) :
    env.recipientRead = .failure e ∨ env.blockhash = .error e := by
  simp only [transferPrep] at h
  split at h
  · simp at h
  split at h
  · simp at h
  split at h
  · simp at h
  split at h
  · simp at h
  split at h
  · simp at h
  split at h
  · simp at h
  split at h
  · simp at h
  split at h
  · simp at h
    rename_i e2 heq
    exact Or.inl (h ▸ doesSwellAccountExist_error heq)
  split at h
  · simp at h
    rename_i e2 heq
    exact Or.inr (h ▸ heq)
  · simp at h

lemma transferFinish_simulation_error {env : TransferEnv} {m : String}
    (hsim : env.simulate = .ok (some m)) :
    transferFinish env =
      (.error (.typed ⟨"Transaction simulation failed: " ++ m,
        SwellErrorCode.SIMULATION_FAILED, none⟩), [Event.simulate]) := by
  simp [transferFinish, hsim]

lemma transferFinish_untyped {env : TransferEnv} {e : JsError}
    (h : (transferFinish env).1 = .error (.untyped e)) :
    env.simulate = .error e := by
  obtain ⟨a, c, f, sr, rr, bh, sim, sg, sd, cf, gt⟩ := env
  simp only at h ⊢
  rcases sim with es | _ | m
  · simp [transferFinish] at h
    simp [h]
  · rcases sg with eg | u
    · by_cases hr : isRejectionMessage eg <;> simp [transferFinish, hr] at h
    rcases sd with ed | sig
    · simp [transferFinish, classifySendError] at h
    rcases cf with ec | ⟨_ | cerr, slot⟩
    · simp [transferFinish, classifySendError] at h
    · rcases gt with et | bt
      · simp [transferFinish, classifySendError] at h
      · simp [transferFinish] at h
    · simp [transferFinish] at h
  · simp [transferFinish] at h

lemma transferFinish_typed_codes {env : TransferEnv}
    {err : SwellTransferError}
    (h : (transferFinish env).1 = .error (.typed err)) :
    err.code = SwellErrorCode.SIMULATION_FAILED ∨
    err.code = SwellErrorCode.USER_REJECTED ∨
    err.code = SwellErrorCode.UNKNOWN ∨
    err.code = SwellErrorCode.INSUFFICIENT_SOL ∨
    err.code = SwellErrorCode.CONFIRMATION_FAILED ∨
    err.code = SwellErrorCode.NETWORK_ERROR := by
  obtain ⟨a, c, f, sr, rr, bh, sim, sg, sd, cf, gt⟩ := env
  rcases sim with es | _ | m
  · simp [transferFinish] at h
  · rcases sg with eg | u
    · by_cases hr : isRejectionMessage eg <;>
        simp [transferFinish, hr] at h <;> simp [← h]
    rcases sd with ed | sig
    · simp [transferFinish] at h
      rcases classifySendError_code ed with h2 | h2 | h2 <;> simp [← h, h2]
    rcases cf with ec | ⟨_ | cerr, slot⟩
    · simp [transferFinish] at h
      rcases classifySendError_code ec with h2 | h2 | h2 <;> simp [← h, h2]
    · rcases gt with et | bt
      · simp [transferFinish] at h
        rcases classifySendError_code et with h2 | h2 | h2 <;> simp [← h, h2]
      · simp [transferFinish] at h
    · simp [transferFinish] at h
      simp [← h]
  · simp [transferFinish] at h
    simp [← h]

lemma transferFinish_no_built {env : TransferEnv} {tx : List Instr} :
    Event.built tx ∉ (transferFinish env).2 := by
  obtain ⟨a, c, f, sr, rr, bh, sim, sg, sd, cf, gt⟩ := env
  rcases sim with es | _ | m
  · simp [transferFinish]
  · rcases sg with eg | u
    · by_cases hr : isRejectionMessage eg <;> simp [transferFinish, hr]
    rcases sd with ed | sig
    · simp [transferFinish]
    rcases cf with ec | ⟨_ | cerr, slot⟩
    · simp [transferFinish]
    · rcases gt with et | bt <;> simp [transferFinish]
    · simp [transferFinish]
  · simp [transferFinish]

lemma transferSwell_built {env : TransferEnv} {p : TransferParams}
    {tx : List Instr} (h : Event.built tx ∈ (transferSwell env p).2) :
    tx = builtInstructions env p := by
  rcases hp : (transferPrep env p).1 with e | t
  · exact transferPrep_built (by simpa [transferSwell, hp] using h)
  · simp only [transferSwell, hp, List.mem_append] at h
    rcases h with h | h
    · exact transferPrep_built h
    · exact absurd h transferFinish_no_built

lemma transferPrep_typed_codes {env : TransferEnv} {p : TransferParams}
    {err : SwellTransferError}
    (h : (transferPrep env p).1 = .error (.typed err)) :
    err.code = SwellErrorCode.INVALID_AMOUNT ∨
    err.code = SwellErrorCode.INVALID_RECIPIENT ∨
    err.code = SwellErrorCode.INSUFFICIENT_BALANCE ∨
    err.code = SwellErrorCode.MINT_FETCH_FAILED ∨
    err.code = SwellErrorCode.NETWORK_ERROR := by
  simp only [transferPrep] at h
  split at h
  · simp at h
    simp [← h]
  split at h
  · simp at h
    simp [← h]
  split at h
  · simp at h
    simp [← h]
  split at h
  · simp at h
    rename_i e heq
    rcases getSwellBalance_error_code heq with h2 | h2 <;> simp [← h, h2]
  split at h
  · simp at h
    rename_i e heq
    simp [← h, getSwellDecimals_error_code heq]
  split at h
  · simp at h
    simp [← h]
  split at h
  · simp at h
    simp [← h]
  split at h
  · simp at h
  split at h
  · simp at h
  · simp at h

lemma transferFinish_sign_cause {env : TransferEnv}
    {err : SwellTransferError}
    (h : (transferFinish env).1 = .error (.typed err))
    (hc : err.code = SwellErrorCode.USER_REJECTED ∨
      err.code = SwellErrorCode.UNKNOWN) :
    ∃ es, env.sign = .error es ∧ err.cause = some es := by
  obtain ⟨a, c, f, sr, rr, bh, sim, sg, sd, cf, gt⟩ := env
  simp only at hc ⊢
  rcases sim with es | _ | m
  · simp [transferFinish] at h
  · rcases sg with eg | u
    · by_cases hr : isRejectionMessage eg <;>
        simp [transferFinish, hr] at h <;> simp [← h]
    rcases sd with ed | sig
    · simp [transferFinish] at h
      have h2 := classifySendError_code ed
      rw [h] at h2
      rcases h2 with h2 | h2 | h2 <;> rw [h2] at hc <;> simp at hc
    rcases cf with ec | ⟨_ | cerr, slot⟩
    · simp [transferFinish] at h
      have h2 := classifySendError_code ec
      rw [h] at h2
      rcases h2 with h2 | h2 | h2 <;> rw [h2] at hc <;> simp at hc
    · rcases gt with et | bt
      · simp [transferFinish] at h
        have h2 := classifySendError_code et
        rw [h] at h2
        rcases h2 with h2 | h2 | h2 <;> rw [h2] at hc <;> simp at hc
      · simp [transferFinish] at h
    · simp [transferFinish] at h
      rw [← h] at hc
      simp at hc
  · simp [transferFinish] at h
    rw [← h] at hc
    simp at hc

/-! ## Concrete environments used by witnesses and counterexamples -/

/-- A fully successful environment: decimals 2 (cached), sender holds
raw 100000 (= 1000.00 SWELL), recipient account absent, blockhash/simulate/
sign/send/confirm/details all succeed. -/
def envFine : TransferEnv :=
  ⟨fun o => o + 1000, some 2, .ok 2, .ok 100000, .notFound, .ok ("bh", 5),
    .ok none, .ok (), .ok "sig", .ok (none, 42), .ok (some 7)⟩

/-- Transfer request of `1.23456789` SWELL (more fractional digits than the
2 decimals of `envFine`), zero priority fee. -/
def pFine : TransferParams :=
  ⟨1, 2, true, (123456789 : ℚ) / 100000000, some 0⟩

/-- The spec's end-to-end scenario: decimals 9 (cached), sender holds
raw 50000000000 (= 50 SWELL), recipient account absent, everything
succeeds. -/
def envNine : TransferEnv :=
  ⟨fun o => o + 1000, some 9, .ok 9, .ok 50000000000, .notFound,
    .ok ("bh", 5), .ok none, .ok (), .ok "sig", .ok (none, 42), .ok (some 7)⟩

/-- Transfer request of 10 SWELL with zero priority fee. -/
def pTen : TransferParams := ⟨1, 2, true, 10, some 0⟩

/-- Like `envNine` but the blockhash fetch throws. -/
def envBhFail : TransferEnv :=
  ⟨fun o => o + 1000, some 9, .ok 9, .ok 50000000000, .notFound,
    .error "rpc down", .ok none, .ok (), .ok "sig", .ok (none, 42),
    .ok (some 7)⟩

/-- Like `envNine` but the simulation reports an error. -/
def envSimErr : TransferEnv :=
  ⟨fun o => o + 1000, some 9, .ok 9, .ok 50000000000, .notFound,
    .ok ("bh", 5), .ok (some "boom"), .ok (), .ok "sig", .ok (none, 42),
    .ok (some 7)⟩

/-! ## Claim theorems -/

/-- C5: for all valid pairs `(amount, decimals)`, the raw transfer amount
equals `floor(amount * 10^decimals)`, and converting that raw amount back
(`fromRawAmount`) differs from the original amount by less than one raw
unit (`1 / 10^decimals`). -/
theorem c5_raw_amount_floor_and_roundtrip (amount : ℚ) (decimals : ℕ) :
    toRawAmount decimals amount = ⌊amount * 10 ^ decimals⌋ ∧
    |fromRawAmount decimals (toRawAmount decimals amount) - amount| <
      1 / 10 ^ decimals := by
  refine ⟨rfl, ?_⟩
  have hf : (0 : ℚ) < 10 ^ decimals := by positivity
  have h1 : (⌊amount * 10 ^ decimals⌋ : ℚ) ≤ amount * 10 ^ decimals :=
    Int.floor_le _
  have h2 : amount * 10 ^ decimals < ⌊amount * 10 ^ decimals⌋ + 1 :=
    Int.lt_floor_add_one _
  have h3 : (⌊amount * 10 ^ decimals⌋ : ℚ) / 10 ^ decimals ≤ amount :=
    (div_le_iff₀ hf).mpr h1
  rw [fromRawAmount, toRawAmount, abs_sub_comm,
    abs_of_nonneg (sub_nonneg.mpr h3), sub_lt_iff_lt_add, div_add_div_same,
    lt_div_iff₀ hf]
  linarith

/-- C6: a cached `getSwellDecimals` call returns the cached value with no
fetch; a cold call fetches and caches on success; a failed fetch raises
`MINT_FETCH_FAILED` and leaves the cache empty (so the next call fetches
again); and across arbitrarily many calls whose first fetch succeeds, the
underlying fetch runs at most once. -/
theorem c6_decimals_fetched_once_and_retry_on_failure (d : ℕ) (e : JsError)
    (f : Except JsError ℕ) (oracle : ℕ → Except JsError ℕ) :
    getSwellDecimals (some d) f = (.ok d, some d, []) ∧
    getSwellDecimals none (.ok d) = (.ok d, some d, [Event.fetchMint]) ∧
    getSwellDecimals none (.error e) =
      (.error ⟨"Failed to fetch SWELL mint info: " ++ e,
        SwellErrorCode.MINT_FETCH_FAILED, some e⟩, none, [Event.fetchMint]) ∧
    (oracle 0 = .ok d → ∀ n, (runDecimals oracle n).2 ≤ 1) := by
  refine ⟨rfl, rfl, rfl, fun h n => ?_⟩
  have key : ∀ m, 0 < m → runDecimals oracle m = (some d, 1) := by
    intro m hm
    induction m with
    | zero => exact absurd hm (by omega)
    | succ k ih =>
      rcases Nat.eq_zero_or_pos k with h0 | hk
      · subst h0
        simp [runDecimals, h, getSwellDecimals]
      · simp [runDecimals, ih hk, getSwellDecimals]
  cases n with
  | zero => simp [runDecimals]
  | succ k => rw [key (k + 1) (by omega)]

/-- C6 witness: with an oracle that always answers 9, three calls starting
from the empty cache perform at most one fetch. -/
theorem c6_witness :
    (runDecimals (fun _ => Except.ok 9) 3).2 ≤ 1 :=
  (c6_decimals_fetched_once_and_retry_on_failure 9 "x" (.ok 9)
    (fun _ => Except.ok 9)).2.2.2 rfl 3

/-- C7: when decimals resolve, `getSwellBalance` for an owner whose token
account does not exist returns a zero balance with `accountExists = false`
without raising, and any other failure of the account read raises the typed
`NETWORK_ERROR`. -/
theorem c7_balance_missing_account_not_an_error (ataOf : ℕ → ℕ)
    (cache : Option ℕ) (fetch : Except JsError ℕ) (owner d : ℕ)
    (hdec : (getSwellDecimals cache fetch).1 = .ok d) :
    (getSwellBalance ataOf cache fetch .notFound owner).1 =
      .ok ⟨0, 0, ataOf owner, false⟩ ∧
    ∀ e, (getSwellBalance ataOf cache fetch (.failure e) owner).1 =
      .error ⟨"Failed to fetch SWELL balance: " ++ e,
        SwellErrorCode.NETWORK_ERROR, some e⟩ := by
  unfold getSwellBalance
  cases cache <;> cases fetch <;> simp [getSwellDecimals] at hdec ⊢

/-- C7 witness: concrete instance with cached decimals 2. -/
theorem c7_witness :
    (getSwellBalance (fun o => o + 1000) (some 2) (.ok 2) .notFound 5).1 =
      .ok ⟨0, 0, 1005, false⟩ ∧
    (getSwellBalance (fun o => o + 1000) (some 2) (.ok 2)
      (.failure "io") 5).1 =
      .error ⟨"Failed to fetch SWELL balance: io",
        SwellErrorCode.NETWORK_ERROR, some "io"⟩ := by
  have h := c7_balance_missing_account_not_an_error (fun o => o + 1000)
    (some 2) (.ok 2) 5 2 rfl
  exact ⟨h.1, h.2 "io"⟩

/-- C10: `getSwellBalance` resolves the mint decimals before reading the
owner's token account: a failing decimals fetch on a cold cache raises the
typed `MINT_FETCH_FAILED` (for any account-read outcome, including an
absent account) with no account read performed, and any performed account
read implies the decimals resolved successfully. -/
theorem c10_balance_resolves_decimals_before_account_read (ataOf : ℕ → ℕ)
    (read : AccountRead) (owner : ℕ) (e : JsError) :
    (getSwellBalance ataOf none (.error e) read owner).1 =
      .error ⟨"Failed to fetch SWELL mint info: " ++ e,
        SwellErrorCode.MINT_FETCH_FAILED, some e⟩ ∧
    (getSwellBalance ataOf none (.error e) read owner).2.2 =
      [Event.fetchMint] ∧
    ∀ (cache : Option ℕ) (fetch : Except JsError ℕ) (a : ℕ),
      Event.readAccount a ∈ (getSwellBalance ataOf cache fetch read owner).2.2 →
      ∃ d, (getSwellDecimals cache fetch).1 = .ok d := by
  refine ⟨?_, ?_, ?_⟩
  · cases read <;> simp [getSwellBalance, getSwellDecimals]
  · cases read <;> simp [getSwellBalance, getSwellDecimals]
  · intro cache fetch a h
    unfold getSwellBalance at h
    cases cache <;> cases fetch <;> cases read <;>
      simp [getSwellDecimals] at h ⊢

/-- C10 witness: with a cold cache and failing fetch, the balance read of
owner 5 raises `MINT_FETCH_FAILED` and performs no account read. -/
theorem c10_witness :
    (getSwellBalance (fun o => o + 1000) none (.error "down")
      .notFound 5).1 =
      .error ⟨"Failed to fetch SWELL mint info: down",
        SwellErrorCode.MINT_FETCH_FAILED, some "down"⟩ ∧
    (getSwellBalance (fun o => o + 1000) none (.error "down")
      .notFound 5).2.2 = [Event.fetchMint] :=
  ⟨(c10_balance_resolves_decimals_before_account_read (fun o => o + 1000)
      .notFound 5 "down").1,
    (c10_balance_resolves_decimals_before_account_read (fun o => o + 1000)
      .notFound 5 "down").2.1⟩

/-- C8: a transfer request with a positive amount and a well-formed
recipient equal to the sender raises the typed `INVALID_RECIPIENT` with an
empty trace — before any network or signer interaction — for every
environment, in particular regardless of the sender's balance. -/
theorem c8_self_transfer_raises_invalid_recipient (env : TransferEnv)
    (p : TransferParams) (hamt : 0 < p.amount)
    (hvalid : p.recipientValid = true)
    (hself : p.senderKey = p.recipientKey) :
    transferSwell env p =
      (.error (.typed ⟨"Cannot transfer to yourself",
        SwellErrorCode.INVALID_RECIPIENT, none⟩), []) := by
  have hprep : transferPrep env p =
      (.error (.typed ⟨"Cannot transfer to yourself",
        SwellErrorCode.INVALID_RECIPIENT, none⟩), []) := by
    unfold transferPrep
    rw [if_neg (by exact not_le.mpr hamt)]
    simp [hvalid, hself]
  simp [transferSwell, hprep]

/-- C8 witness: a self-transfer of 10 SWELL in the fully funded `envNine`
(sender balance 50 SWELL) raises `INVALID_RECIPIENT` with no events. -/
theorem c8_witness :
    transferSwell envNine ⟨1, 1, true, 10, some 0⟩ =
      (.error (.typed ⟨"Cannot transfer to yourself",
        SwellErrorCode.INVALID_RECIPIENT, none⟩), []) :=
  c8_self_transfer_raises_invalid_recipient envNine ⟨1, 1, true, 10, some 0⟩
    (by norm_num) rfl rfl

/-- C1 counterexample: the request `pFine` asks for `1.23456789` SWELL while
the token has 2 decimals — `isValidTransferAmount` classifies the amount as
invalid — yet `transferSwell` raises no `INVALID_AMOUNT`: it performs
network reads and completes the transfer successfully (flooring the raw
amount), refuting the claim at this concrete input. -/
theorem c1_counterexample_excess_precision_not_rejected :
    (isValidTransferAmount (some 2) (.ok 2) pFine.amount).1 = .ok false ∧
    (transferSwell envFine pFine).1 =
      .ok ⟨"sig", 42, some 7, "https://explorer.solana.com/tx/sig"⟩ ∧
    Event.readAccount 1001 ∈ (transferSwell envFine pFine).2 := by
  refine ⟨?_, ?_, ?_⟩
  · norm_num [isValidTransferAmount, getSwellDecimals, pFine]
  · norm_num [transferSwell, transferPrep, transferFinish, getSwellBalance,
      getSwellDecimals, doesSwellAccountExist, getExplorerTxUrl,
      SOLANA_EXPLORER_URL, envFine, pFine]
    decide
  · norm_num [transferSwell, transferPrep, transferFinish, getSwellBalance,
      getSwellDecimals, doesSwellAccountExist, envFine, pFine]

/-- C1 amended: `transferSwell` raises a typed `INVALID_AMOUNT` exactly for
non-positive amounts; an amount with more fractional digits than the
token's decimals is not rejected (the pipeline proceeds and floors it), the
unused helper `isValidTransferAmount` notwithstanding. -/
theorem c1_amended_invalid_amount_iff_nonpositive (env : TransferEnv)
    (p : TransferParams) :
    (∃ err, (transferSwell env p).1 = .error (.typed err) ∧
      err.code = SwellErrorCode.INVALID_AMOUNT) ↔ p.amount ≤ 0 := by
  constructor
  · rintro ⟨err, h, hc⟩
    rcases hp : (transferPrep env p).1 with e | tx
    · simp [transferSwell, hp] at h
      rw [h] at hp
      exact transferPrep_invalid_amount_code hp hc
    · simp [transferSwell, hp] at h
      rcases transferFinish_typed_codes h with h2|h2|h2|h2|h2|h2 <;>
        rw [h2] at hc <;> simp at hc
  · intro hle
    refine ⟨⟨"Transfer amount must be a positive number",
      SwellErrorCode.INVALID_AMOUNT, none⟩, ?_, rfl⟩
    have hprep : (transferPrep env p).1 =
        .error (.typed ⟨"Transfer amount must be a positive number",
          SwellErrorCode.INVALID_AMOUNT, none⟩) := by
      simp [transferPrep, hle]
    simp [transferSwell, hprep]

/-- C2: whenever a pipeline run reaches simulation and the simulation
result reports an error, `transferSwell` raises the typed
`SIMULATION_FAILED` and neither the signer's sign function nor the
network's send function is ever invoked. -/
theorem c2_simulation_error_stops_pipeline (env : TransferEnv)
    (p : TransferParams) (m : String)
    (hsim : env.simulate = .ok (some m))
    (hreach : Event.simulate ∈ (transferSwell env p).2) :
    (transferSwell env p).1 =
      .error (.typed ⟨"Transaction simulation failed: " ++ m,
        SwellErrorCode.SIMULATION_FAILED, none⟩) ∧
    Event.sign ∉ (transferSwell env p).2 ∧
    Event.send ∉ (transferSwell env p).2 := by
  rcases hp : (transferPrep env p).1 with e | tx
  · refine absurd ?_ (transferPrep_no_simulate env p)
    simpa [transferSwell, hp] using hreach
  · have hfin := transferFinish_simulation_error hsim
    refine ⟨?_, ?_, ?_⟩ <;>
      simp [transferSwell, hp, hfin, transferPrep_no_sign,
        transferPrep_no_send]

/-- C2 witness: in `envSimErr` (simulation reports "boom") the pipeline for
a 10 SWELL transfer reaches simulation, raises `SIMULATION_FAILED` and
never signs. -/
theorem c2_witness :
    envSimErr.simulate = .ok (some "boom") ∧
    (transferSwell envSimErr pTen).1 =
      .error (.typed ⟨"Transaction simulation failed: " ++ "boom",
        SwellErrorCode.SIMULATION_FAILED, none⟩) ∧
    Event.sign ∉ (transferSwell envSimErr pTen).2 := by
  have hreach : Event.simulate ∈ (transferSwell envSimErr pTen).2 := by
    norm_num [transferSwell, transferPrep, transferFinish, getSwellBalance,
      getSwellDecimals, doesSwellAccountExist, envSimErr, pTen]
  have h := c2_simulation_error_stops_pipeline envSimErr pTen "boom" rfl
    hreach
  exact ⟨rfl, h.1, h.2.1⟩

/-- C3 counterexample: a failing blockhash fetch is not caught anywhere in
`transferSwell` — the raw untyped error propagates to the caller, refuting
"every failure is re-raised as a typed SwellTransferError". -/
theorem c3_counterexample_blockhash_failure_untyped :
    (transferSwell envBhFail pTen).1 = .error (.untyped "rpc down") := by
  norm_num [transferSwell, transferPrep, getSwellBalance, getSwellDecimals,
    doesSwellAccountExist, envBhFail, pTen]

/-- C3 amended: outside the three unguarded calls — the recipient-account
existence check, the blockhash fetch and the simulation RPC call, whose
failures propagate untyped — every failure in the pipeline is re-raised as
a typed `SwellTransferError`; in particular a signing failure is re-raised
as `USER_REJECTED`/`UNKNOWN` carrying the original error as cause. -/
theorem c3_amended_typed_errors_outside_unguarded_calls (env : TransferEnv)
    (p : TransferParams)
    (hrr : ∀ e, env.recipientRead ≠ AccountRead.failure e)
    (hbh : ∀ e, env.blockhash ≠ Except.error e)
    (hsim : ∀ e, env.simulate ≠ Except.error e) :
    (∀ e, (transferSwell env p).1 ≠ .error (.untyped e)) ∧
    (∀ err, (transferSwell env p).1 = .error (.typed err) →
      (err.code = SwellErrorCode.USER_REJECTED ∨
        err.code = SwellErrorCode.UNKNOWN) →
      ∃ es, env.sign = .error es ∧ err.cause = some es) := by
  constructor
  · intro e h
    rcases hp : (transferPrep env p).1 with e2 | tx
    · simp [transferSwell, hp] at h
      rw [h] at hp
      rcases transferPrep_untyped hp with h2 | h2
      · exact hrr e h2
      · exact hbh e h2
    · simp [transferSwell, hp] at h
      exact hsim e (transferFinish_untyped h)
  · intro err h hc
    rcases hp : (transferPrep env p).1 with e2 | tx
    · simp [transferSwell, hp] at h
      rw [h] at hp
      rcases transferPrep_typed_codes hp with h2|h2|h2|h2|h2 <;>
        rcases hc with hc | hc <;> rw [h2] at hc <;> simp at hc
    · simp [transferSwell, hp] at h
      exact transferFinish_sign_cause h hc

/-- C3 witness: in the failure-free `envNine` the outcome is never an
untyped error. -/
theorem c3_witness :
    (transferSwell envNine pTen).1 ≠ .error (.untyped "x") :=
  (c3_amended_typed_errors_outside_unguarded_calls envNine pTen
    (by intro e; simp [envNine]) (by intro e; simp [envNine])
    (by intro e; simp [envNine])).1 "x"

/-- C4 counterexample: the spec's scenario (recipient account absent, zero
priority fee, 10 SWELL at 9 decimals) builds a 2-instruction transaction
(create-account + transfer), not a 3-instruction one — the full trace shows
the single `built` event and its instruction list has length 2. -/
theorem c4_counterexample_two_instruction_build :
    (transferSwell envNine pTen).2 =
      [Event.readAccount 1001, Event.readAccount 1002, Event.fetchBlockhash,
        Event.built [Instr.createAta 1 2,
          Instr.transfer 1001 1002 1 10000000000],
        Event.simulate, Event.sign, Event.send, Event.confirm,
        Event.getTx] ∧
    [Instr.createAta 1 2,
      Instr.transfer 1001 1002 1 10000000000].length = 2 := by
  constructor
  · norm_num [transferSwell, transferPrep, transferFinish, getSwellBalance,
      getSwellDecimals, doesSwellAccountExist, envNine, pTen]
  · rfl

/-- C4 amended: every transaction `transferSwell` builds has the shape
`builtInstructions`: compute-unit-limit then compute-unit-price (only for a
non-zero requested priority fee), then a create-account instruction when
the recipient's token account does not exist, then the transfer instruction
moving `floor(amount * 10^decimals)` raw units; in the scenario above
(missing recipient account, zero fee) this is a 2-instruction transaction. -/
theorem c4_amended_build_order (env : TransferEnv) (p : TransferParams)
    (tx : List Instr) (h : Event.built tx ∈ (transferSwell env p).2) :
    tx = builtInstructions env p :=
  transferSwell_built h

/-- C4 witness: the transaction built in the scenario environment is
exactly `builtInstructions envNine pTen`. -/
theorem c4_witness :
    [Instr.createAta 1 2, Instr.transfer 1001 1002 1 10000000000] =
      builtInstructions envNine pTen := by
  have hmem : Event.built [Instr.createAta 1 2,
      Instr.transfer 1001 1002 1 10000000000] ∈
      (transferSwell envNine pTen).2 := by
    norm_num [transferSwell, transferPrep, transferFinish, getSwellBalance,
      getSwellDecimals, doesSwellAccountExist, envNine, pTen]
  exact c4_amended_build_order envNine pTen _ hmem

/-- The compute-budget instructions of a built transaction. -/
def computeBudgetInstrs (tx : List Instr) : List Instr :=
  tx.filter fun i =>
    match i with
    | .computeUnitLimit _ => true
    | .computeUnitPrice _ => true
    | _ => false

/-- C9: in every built transaction, an omitted `priorityFee` is substituted
by the configured default of 1000 microlamports per compute unit, so the
two compute-budget instructions are present by default; an explicit fee of
0 omits them, and an explicit positive fee keeps them with that fee. -/
theorem c9_default_priority_fee_instructions (env : TransferEnv)
    (p : TransferParams) (tx : List Instr)
    (h : Event.built tx ∈ (transferSwell env p).2) :
    DEFAULT_PRIORITY_FEE_MICROLAMPORTS = 1000 ∧
    (p.priorityFee = none → computeBudgetInstrs tx =
      [Instr.computeUnitLimit DEFAULT_COMPUTE_UNITS,
        Instr.computeUnitPrice DEFAULT_PRIORITY_FEE_MICROLAMPORTS]) ∧
    (p.priorityFee = some 0 → computeBudgetInstrs tx = []) ∧
    (∀ n, p.priorityFee = some n → 0 < n → computeBudgetInstrs tx =
      [Instr.computeUnitLimit DEFAULT_COMPUTE_UNITS,
        Instr.computeUnitPrice n]) := by
  have htx := transferSwell_built h
  subst htx
  refine ⟨rfl, ?_, ?_, ?_⟩
  · intro hfee
    cases hre : recipientExistsOf env.recipientRead <;>
      simp [computeBudgetInstrs, builtInstructions, hfee, hre,
        DEFAULT_PRIORITY_FEE_MICROLAMPORTS]
  · intro hfee
    cases hre : recipientExistsOf env.recipientRead <;>
      simp [computeBudgetInstrs, builtInstructions, hfee, hre]
  · intro n hfee hn
    cases hre : recipientExistsOf env.recipientRead <;>
      simp [computeBudgetInstrs, builtInstructions, hfee, hre, hn]

/-- C9 witness: with the priority fee omitted, the built transaction of the
scenario environment carries the two default compute-budget instructions. -/
theorem c9_witness :
    computeBudgetInstrs (builtInstructions envNine ⟨1, 2, true, 10, none⟩) =
      [Instr.computeUnitLimit DEFAULT_COMPUTE_UNITS,
        Instr.computeUnitPrice DEFAULT_PRIORITY_FEE_MICROLAMPORTS] := by
  have hmem : Event.built (builtInstructions envNine ⟨1, 2, true, 10, none⟩) ∈
      (transferSwell envNine ⟨1, 2, true, 10, none⟩).2 := by
    norm_num [transferSwell, transferPrep, transferFinish, getSwellBalance,
      getSwellDecimals, doesSwellAccountExist, envNine, builtInstructions,
      recipientExistsOf, resolvedDecimals, DEFAULT_PRIORITY_FEE_MICROLAMPORTS,
      DEFAULT_COMPUTE_UNITS]
  exact ((c9_default_priority_fee_instructions envNine ⟨1, 2, true, 10, none⟩
    (builtInstructions envNine ⟨1, 2, true, 10, none⟩) hmem).2.1) rfl
